import Mathlib

set_option maxRecDepth 100000

/-!
Verification of the Gerald BNPL credit-decision engine.

This file is a shallow embedding of the scoring pipeline of the repository
(`src/service/scoring/*.py`) and of the application-service plan builder
(`src/application/services/decision_service.py`), together with proofs of the
behavioural claims about it.

Modelling conventions:
* Python `int` is modelled by `ℤ` (Python integers are unbounded).
* Python `float` values produced by the pipeline are modelled exactly by the
  fraction type `Fr` below (numerator/denominator over `ℤ`, not normalised);
  every denominator produced by the embedded code is positive.  Floating-point
  rounding of the original is idealised away: the embedding computes with exact
  rationals.  The IEEE infinity that `calculate_income_spend_ratio` can return
  is modelled by the explicit sum type `RatioVal`.
* Python `int(x)` (truncation towards zero) is `Fr.pyInt`, and Python's
  `round(x, 2)` (round-half-to-even at two decimals) is `Fr.round2`.
* `datetime.date` is modelled by its proleptic Gregorian ordinal (`ℤ`), the
  value of Python's `date.toordinal()`; ordinal 1 is a Monday, so two dates are
  in the same ISO calendar week (`date.isocalendar()[:2]`) iff their ordinals
  `d` share `(d - 1).fdiv 7`.  `timedelta(days = k)` is `+ k`.
* Calls to `uuid.uuid4()`, `date.today()` and `datetime.utcnow()` are
  nondeterministic inputs of the code; they are passed in as explicit oracle
  parameters (`fresh_uuid`, `today`, `now`, ...).
-/

/-- Exact fraction model of a Python `float`: `num / den`.  Not normalised;
all fractions built by the embedded pipeline have a positive denominator. -/
structure Fr where
  num : ℤ
  den : ℤ
deriving DecidableEq

def Fr.ofInt (n : ℤ) : Fr := ⟨n, 1⟩

def Fr.add (x y : Fr) : Fr := ⟨x.num * y.den + y.num * x.den, x.den * y.den⟩

def Fr.sub (x y : Fr) : Fr := ⟨x.num * y.den - y.num * x.den, x.den * y.den⟩

def Fr.mul (x y : Fr) : Fr := ⟨x.num * y.num, x.den * y.den⟩

def Fr.div (x y : Fr) : Fr := ⟨x.num * y.den, x.den * y.num⟩

/-- `x < y` on fractions, by cross-multiplication.  Agrees with the rational
order whenever both denominators are positive (which holds for every fraction
the pipeline builds). -/
def Fr.blt (x y : Fr) : Bool := decide (x.num * y.den < y.num * x.den)

/-- `x ≤ y` on fractions, by cross-multiplication (denominators positive). -/
def Fr.ble (x y : Fr) : Bool := decide (x.num * y.den ≤ y.num * x.den)

/-- Python `int(x)`: truncation towards zero.  For a positive denominator this
is exactly `Int.tdiv`. -/
def Fr.pyInt (x : Fr) : ℤ := x.num.tdiv x.den

/-- The rational value of a fraction (used only in statements). -/
def Fr.toRat (x : Fr) : ℚ := (x.num : ℚ) / (x.den : ℚ)

/-- Round `a / b` (with `b > 0`) to the nearest integer, ties to even:
the rounding mode of Python's `round`. -/
def roundHalfEven (a b : ℤ) : ℤ :=
  let q := a.fdiv b
  let r := a - q * b
  if 2 * r < b then q
  else if b < 2 * r then q + 1
  else if q % 2 = 0 then q else q + 1

/-- Python `round(x, 2)`. -/
def Fr.round2 (x : Fr) : Fr := ⟨roundHalfEven (x.num * 100) x.den, 100⟩

/-- The value of the income/spend ratio: a finite float or the IEEE infinity
returned by `calculate_income_spend_ratio` when there is income and no
spending (spec §9 asks for exactly this tagged representation). -/
inductive RatioVal where
  | finite (val : Fr)
  | unbounded
deriving DecidableEq

/-- Python `round(x, 2)` on a possibly-infinite float: `round(inf, 2) = inf`. -/
def RatioVal.round2 : RatioVal → RatioVal
  | .finite q => .finite q.round2
  | .unbounded => .unbounded

/-- Python `ratio > t` where `ratio` may be `float('inf')` (infinity compares
greater than every finite float). -/
def RatioVal.bgt (r : RatioVal) (t : Fr) : Bool :=
  match r with
  | .unbounded => true
  | .finite q => t.blt q

/-- Transaction type indicator (`models.TransactionType`). -/
inductive TxnType where
  | credit
  | debit
deriving DecidableEq

/-- A bank transaction (`models.Transaction`).  `date` is the Gregorian
ordinal of the transaction date. -/
structure Transaction where
  date : ℤ
  amount_cents : ℤ
  balance_cents : ℤ
  type : TxnType
  nsf : Bool := false
  description : String := ""
deriving DecidableEq

/-- The configurable scoring parameters (`settings.ScoringSettings`).  The
string-encoded tier list is modelled post-parse, as the list of
`(min_score, max_score, limit_cents)` triples that the `credit_limit_tiers`
property produces. -/
structure ScoringSettings where
  min_transactions : ℕ
  min_history_days : ℕ
  thin_file_limit_cents : ℤ
  weight_adb : Fr
  weight_ratio : Fr
  weight_nsf : Fr
  gig_worker_consistency_threshold : Fr
  gig_worker_ratio_threshold : Fr
  gig_worker_boost : ℤ
  approval_threshold : ℤ
  adb_negative_floor : Fr
  adb_low_threshold : Fr
  adb_moderate_threshold : Fr
  adb_good_threshold : Fr
  ratio_critical_threshold : Fr
  ratio_breakeven_threshold : Fr
  ratio_sustainable_threshold : Fr
  ratio_healthy_threshold : Fr
  nsf_forgivable_count : ℕ
  nsf_concerning_count : ℕ
  nsf_high_risk_count : ℕ
  credit_limit_tiers : List (ℤ × ℤ × ℤ)
deriving DecidableEq

/-- The default settings (`settings.scoring_settings`, loaded with no
environment overrides).  Decimal literals of the source become exact
fractions. -/
def scoring_settings : ScoringSettings where
  min_transactions := 10
  min_history_days := 30
  thin_file_limit_cents := 10000
  weight_adb := ⟨30, 100⟩
  weight_ratio := ⟨35, 100⟩
  weight_nsf := ⟨35, 100⟩
  gig_worker_consistency_threshold := ⟨5, 10⟩
  gig_worker_ratio_threshold := ⟨12, 10⟩
  gig_worker_boost := 10
  approval_threshold := 30
  adb_negative_floor := ⟨-200, 1⟩
  adb_low_threshold := ⟨100, 1⟩
  adb_moderate_threshold := ⟨500, 1⟩
  adb_good_threshold := ⟨1500, 1⟩
  ratio_critical_threshold := ⟨8, 10⟩
  ratio_breakeven_threshold := ⟨10, 10⟩
  ratio_sustainable_threshold := ⟨13, 10⟩
  ratio_healthy_threshold := ⟨20, 10⟩
  nsf_forgivable_count := 1
  nsf_concerning_count := 2
  nsf_high_risk_count := 4
  credit_limit_tiers :=
    [(0, 29, 0), (30, 44, 10000), (45, 59, 20000), (60, 74, 30000),
     (75, 84, 40000), (85, 94, 50000), (95, 100, 60000)]

/-- Stable insertion of a transaction into a list already sorted by date:
the new element goes after all elements with date `≤` its own, as Python's
stable `sorted(transactions, key=lambda t: t.date)` would keep it. -/
def sortInsert (t : Transaction) : List Transaction → List Transaction
  | [] => [t]
  | u :: us => if u.date ≤ t.date then u :: sortInsert t us else t :: u :: us

/-- Python's stable `sorted(transactions, key=lambda t: t.date)`: fold the
input left to right, each element inserted after its equals. -/
def sortByDate (txs : List Transaction) : List Transaction :=
  txs.foldl (fun acc t => sortInsert t acc) []

/-- `min(daily_balances.keys())` of `calculate_avg_daily_balance`: the
earliest transaction date.  (Unreachable junk value 0 for the empty list: the
source raises `ValueError` there.) -/
def minDate : List Transaction → ℤ
  | [] => 0
  | t :: ts => ts.foldl (fun m u => min m u.date) t.date

/-- The `daily_balances` map of `calculate_avg_daily_balance` looked up at
date `d`.  The dict is written in stably-sorted order with last write
winning, so the entry for `d` is the balance of the last transaction dated
`d` in input order. -/
def dayBalance (txs : List Transaction) (d : ℤ) : Option ℤ :=
  ((txs.filter (fun t => t.date = d)).getLast?).map (·.balance_cents)

/-- The day-by-day loop of `calculate_avg_daily_balance` after `n` days:
returns `(total_cents, last_balance)`.  Day `k` (0-based) reads the map at
`start + k`, carrying the previous balance forward when absent (0 before the
first recorded balance). -/
def adbLoop (txs : List Transaction) (start : ℤ) : ℕ → ℤ × ℤ
  | 0 => (0, 0)
  | n + 1 =>
    let p := adbLoop txs start n
    let b := (dayBalance txs (start + (n : ℤ))).getD p.2
    (p.1 + b, b)

/-- `risk_factors.calculate_avg_daily_balance`: average end-of-day balance in
dollars over the 90-day window anchored at the earliest transaction date
(`end_date = start_date + 89`, `num_days = 90`). -/
def calculate_avg_daily_balance (transactions : List Transaction) : Fr :=
  ⟨(adbLoop transactions (minDate transactions) 90).1, 90 * 100⟩

/-- `risk_factors.calculate_income_spend_ratio`. -/
def calculate_income_spend_ratio (transactions : List Transaction) : RatioVal :=
  if transactions.isEmpty then .finite (Fr.ofInt 1)
  else
    let total_credits :=
      ((transactions.filter (fun t => t.type = TxnType.credit)).map
        (·.amount_cents)).sum
    let total_debits :=
      |((transactions.filter (fun t => t.type = TxnType.debit)).map
        (·.amount_cents)).sum|
    if total_debits = 0 then
      if total_credits > 0 then .unbounded else .finite (Fr.ofInt 1)
    else
      let monthly_income := (Fr.ofInt total_credits).div (Fr.ofInt 3)
      let monthly_spending := (Fr.ofInt total_debits).div (Fr.ofInt 3)
      .finite (monthly_income.div monthly_spending)

/-- The chronological fold of `count_nsf_events`, carrying `prev_balance`
(initially 0): a transaction counts if explicitly flagged, or else if it is a
debit whose balance is negative while the previous balance was
non-negative. -/
def nsfLoop : List Transaction → ℤ → ℕ
  | [], _ => 0
  | t :: ts, prev =>
    (if t.nsf then 1
     else if t.type = TxnType.debit ∧ t.balance_cents < 0 ∧ 0 ≤ prev then 1
     else 0)
    + nsfLoop ts t.balance_cents

/-- `risk_factors.count_nsf_events`. -/
def count_nsf_events (transactions : List Transaction) : ℕ :=
  nsfLoop (sortByDate transactions) 0

/-- The ISO-calendar-week key of a date: ordinal 1 (0001-01-01) is a Monday,
so Monday-aligned weeks — exactly the grouping of `isocalendar()[:2]` — are
the fibers of `(d - 1).fdiv 7`. -/
def isoWeekKey (d : ℤ) : ℤ := (d - 1).fdiv 7

/-- One `weekly_income[year_week] += txn.amount_cents` step on the
insertion-ordered association list modelling the defaultdict. -/
def bumpWeek : List (ℤ × ℤ) → ℤ → ℤ → List (ℤ × ℤ)
  | [], k, v => [(k, v)]
  | (k', v') :: rest, k, v =>
    if k = k' then (k', v' + v) :: rest else (k', v') :: bumpWeek rest k v

/-- The `weekly_income` defaultdict of `calculate_income_consistency`. -/
def weeklyIncome (credits : List Transaction) : List (ℤ × ℤ) :=
  credits.foldl (fun acc t => bumpWeek acc (isoWeekKey t.date) t.amount_cents) []

/-- The income-consistency value of `calculate_income_consistency`.  The
source returns the float `min(1, max(0, 1 - sqrt(variance) / mean))` (or the
neutral 0.5 on insufficient data).  Since `sqrt` has no exact fraction, the
measured case carries `(mean, variance)` (with `mean > 0`); the sole consumer
only ever compares the value against a threshold, see `consistencyLt`. -/
inductive ConsistencySignal where
  | neutral
  | measured (mean variance : Fr)
deriving DecidableEq

/-- `risk_factors.calculate_income_consistency`: neutral 0.5 with fewer than
3 credits, fewer than 4 distinct ISO weeks, or non-positive weekly mean;
otherwise the population mean and variance of the weekly income sums. -/
def calculate_income_consistency (transactions : List Transaction) :
    ConsistencySignal :=
  let credits := transactions.filter (fun t => t.type = TxnType.credit)
  if credits.length < 3 then .neutral
  else
    let weekly := weeklyIncome credits
    if weekly.length < 4 then .neutral
    else
      let values := weekly.map (·.2)
      let mean := (Fr.ofInt values.sum).div (Fr.ofInt values.length)
      if mean.ble (Fr.ofInt 0) then .neutral
      else
        let variance :=
          ((values.map (fun v =>
              ((Fr.ofInt v).sub mean).mul ((Fr.ofInt v).sub mean))).foldl
            Fr.add (Fr.ofInt 0)).div (Fr.ofInt values.length)
        .measured mean variance

/-- The comparison `income_consistency < threshold` performed by
`calculate_risk_score`.  For the measured case the consistency value is
`max(0, 1 - sqrt(variance)/mean)` (its `min(1, ·)` clamp is vacuous since
`sqrt(variance)/mean ≥ 0`), and for `mean > 0`, `0 ≤ thr`:
`max(0, 1 - sqrt(v)/mean) < thr  ↔  0 < thr ∧ (1-thr)·mean < sqrt(v)
↔ 0 < thr ∧ ((1-thr)·mean < 0 ∨ ((1-thr)·mean)² < v)` — a rational
inequality, decided here by cross-multiplication. -/
def consistencyLt (c : ConsistencySignal) (thr : Fr) : Bool :=
  match c with
  | .neutral => Fr.blt ⟨5, 10⟩ thr
  | .measured mean variance =>
    let t := ((Fr.ofInt 1).sub thr).mul mean
    (Fr.ofInt 0).blt thr && (t.blt (Fr.ofInt 0) || (t.mul t).blt variance)

/-- `risk_score.score_avg_daily_balance`: piecewise-linear 0-100 score of the
average daily balance (in dollars).  Note the negative branch divides by the
literal 10 — not by the configured `adb_negative_floor`. -/
def score_avg_daily_balance (adb : Fr) (s : ScoringSettings) : ℤ :=
  if adb.blt (Fr.ofInt 0) then
    max 0 ((Fr.ofInt 20).add (adb.div (Fr.ofInt 10))).pyInt
  else if adb.blt s.adb_low_threshold then
    20 + ((adb.div s.adb_low_threshold).mul (Fr.ofInt 20)).pyInt
  else if adb.blt s.adb_moderate_threshold then
    let range_size := s.adb_moderate_threshold.sub s.adb_low_threshold
    40 + (((adb.sub s.adb_low_threshold).div range_size).mul (Fr.ofInt 30)).pyInt
  else if adb.blt s.adb_good_threshold then
    let range_size := s.adb_good_threshold.sub s.adb_moderate_threshold
    70 + (((adb.sub s.adb_moderate_threshold).div range_size).mul (Fr.ofInt 20)).pyInt
  else
    min 100 (90 + ((adb.sub s.adb_good_threshold).div (Fr.ofInt 500)).pyInt * 10)

/-- `risk_score.score_income_spend_ratio`: `float('inf')` scores 100
directly; otherwise piecewise-linear bands. -/
def score_income_spend_ratio (r : RatioVal) (s : ScoringSettings) : ℤ :=
  match r with
  | .unbounded => 100
  | .finite ratio =>
    if ratio.blt s.ratio_critical_threshold then
      ((ratio.div s.ratio_critical_threshold).mul (Fr.ofInt 25)).pyInt
    else if ratio.blt s.ratio_breakeven_threshold then
      let range_size := s.ratio_breakeven_threshold.sub s.ratio_critical_threshold
      25 + (((ratio.sub s.ratio_critical_threshold).div range_size).mul (Fr.ofInt 25)).pyInt
    else if ratio.blt s.ratio_sustainable_threshold then
      let range_size := s.ratio_sustainable_threshold.sub s.ratio_breakeven_threshold
      50 + (((ratio.sub s.ratio_breakeven_threshold).div range_size).mul (Fr.ofInt 25)).pyInt
    else if ratio.blt s.ratio_healthy_threshold then
      let range_size := s.ratio_healthy_threshold.sub s.ratio_sustainable_threshold
      75 + (((ratio.sub s.ratio_sustainable_threshold).div range_size).mul (Fr.ofInt 15)).pyInt
    else
      min 100 (90 + (((ratio.sub s.ratio_healthy_threshold).div (Fr.ofInt 1)).mul (Fr.ofInt 10)).pyInt)

/-- `risk_score.score_nsf_count`: discrete bands 100/75/50/25/0. -/
def score_nsf_count (nsf_count : ℕ) (s : ScoringSettings) : ℤ :=
  if nsf_count = 0 then 100
  else if nsf_count ≤ s.nsf_forgivable_count then 75
  else if nsf_count ≤ s.nsf_concerning_count then 50
  else if nsf_count ≤ s.nsf_high_risk_count then 25
  else 0

/-- `risk_score.calculate_risk_score`: the three sub-scores, the gig-worker
boost of the ratio score (when consistency is below threshold and the ratio
above threshold), then the truncated weighted average. -/
def calculate_risk_score (avg_daily_balance : Fr) (income_spend_ratio : RatioVal)
    (nsf_count : ℕ) (income_consistency : Option ConsistencySignal)
    (s : ScoringSettings) : ℤ :=
  let adb_score := score_avg_daily_balance avg_daily_balance s
  let ratio_score := score_income_spend_ratio income_spend_ratio s
  let nsf_score := score_nsf_count nsf_count s
  let ratio_score :=
    match income_consistency with
    | none => ratio_score
    | some c =>
      if consistencyLt c s.gig_worker_consistency_threshold &&
          income_spend_ratio.bgt s.gig_worker_ratio_threshold then
        min 100 (ratio_score + s.gig_worker_boost)
      else ratio_score
  ((((Fr.ofInt adb_score).mul s.weight_adb).add
      ((Fr.ofInt ratio_score).mul s.weight_ratio)).add
    ((Fr.ofInt nsf_score).mul s.weight_nsf)).pyInt

/-- The tier scan of `credit_limit.score_to_credit_limit_cents`: the limit of
the first tier whose inclusive range contains the score, 0 if none. -/
def tierScan (tiers : List (ℤ × ℤ × ℤ)) (score : ℤ) : ℤ :=
  match tiers with
  | [] => 0
  | (mn, mx, limit) :: rest =>
    if mn ≤ score ∧ score ≤ mx then limit else tierScan rest score

/-- `credit_limit.score_to_credit_limit_cents`: clamp into [0,100], then scan
the configured tiers. -/
def score_to_credit_limit_cents (risk_score : ℤ) (s : ScoringSettings) : ℤ :=
  let clamped := if risk_score < 0 then 0 else if risk_score > 100 then 100 else risk_score
  tierScan s.credit_limit_tiers clamped

/-- `len(set(t.date for t in transactions))`: the number of distinct
transaction dates. -/
def distinctDates (txs : List Transaction) : ℕ :=
  ((txs.map (·.date)).foldl (fun acc d => if d ∈ acc then acc else d :: acc) []).length

/-- `thin_file.is_thin_file`: fewer than `min_transactions` transactions, or
fewer than `min_history_days` distinct transaction dates. -/
def is_thin_file (transactions : List Transaction) (s : ScoringSettings) : Bool :=
  if transactions.length < s.min_transactions then true
  else if distinctDates transactions < s.min_history_days then true
  else false

/-- `thin_file.handle_thin_file`: `none` for a standard file; for a thin file
`(false, 0)` when there is any NSF event, else `(true, starter limit)`. -/
def handle_thin_file (transactions : List Transaction) (s : ScoringSettings) :
    Option (Bool × ℤ) :=
  if !is_thin_file transactions s then none
  else if count_nsf_events transactions > 0 then some (false, 0)
  else some (true, s.thin_file_limit_cents)

/-- `models.DecisionFactors` (also `domain.entities.DecisionFactors`). -/
structure DecisionFactors where
  avg_daily_balance : Fr
  income_ratio : RatioVal
  nsf_count : ℕ
  risk_score : ℤ
deriving DecidableEq

/-- `models.Decision`, the scoring-module decision record. -/
structure Decision where
  approved : Bool
  credit_limit_cents : ℤ
  amount_granted_cents : ℤ
  plan_id : Option String
  decision_factors : DecisionFactors
deriving DecidableEq

/-- `decision.make_decision`: the scoring-module decision engine.  `s` is the
process-wide `scoring_settings` instance every helper reads by default;
`fresh_uuid` is the value `str(uuid.uuid4())` would produce when a plan id is
generated. -/
def make_decision (s : ScoringSettings) (transactions : List Transaction)
    (amount_requested_cents : ℤ) (generate_plan_id : Bool)
    (fresh_uuid : String) : Decision :=
  if transactions.isEmpty then
    { approved := false
      credit_limit_cents := 0
      amount_granted_cents := 0
      plan_id := none
      decision_factors :=
        { avg_daily_balance := Fr.ofInt 0
          income_ratio := .finite (Fr.ofInt 0)
          nsf_count := 0
          risk_score := 0 } }
  else
    match handle_thin_file transactions s with
    | some (approved, credit_limit_cents) =>
      let amount_granted_cents :=
        if approved then min amount_requested_cents credit_limit_cents else 0
      let avg_daily_balance := calculate_avg_daily_balance transactions
      let income_ratio := calculate_income_spend_ratio transactions
      let nsf_count := count_nsf_events transactions
      { approved
        credit_limit_cents
        amount_granted_cents
        plan_id := if approved && generate_plan_id then some fresh_uuid else none
        decision_factors :=
          { avg_daily_balance := avg_daily_balance.round2
            income_ratio := income_ratio.round2
            nsf_count
            risk_score := if !approved then 0 else 30 } }
    | none =>
      let avg_daily_balance := calculate_avg_daily_balance transactions
      let income_ratio := calculate_income_spend_ratio transactions
      let nsf_count := count_nsf_events transactions
      let income_consistency := calculate_income_consistency transactions
      let risk_score :=
        calculate_risk_score avg_daily_balance income_ratio nsf_count
          (some income_consistency) s
      let credit_limit_cents := score_to_credit_limit_cents risk_score s
      let approved := decide (credit_limit_cents > 0)
      let amount_granted_cents :=
        if approved then min amount_requested_cents credit_limit_cents else 0
      { approved
        credit_limit_cents
        amount_granted_cents
        plan_id := if approved && generate_plan_id then some fresh_uuid else none
        decision_factors :=
          { avg_daily_balance := avg_daily_balance.round2
            income_ratio :=
              match income_ratio with
              | .unbounded => .finite ⟨99999, 100⟩
              | .finite q => .finite q.round2
            nsf_count
            risk_score } }

/-- `domain.entities.Decision`, the application-layer decision entity.
`id` and `created_at` are the `uuid4()` / `utcnow()` defaults supplied at
construction, passed as oracle inputs. -/
structure DomainDecision where
  user_id : String
  approved : Bool
  credit_limit_cents : ℤ
  amount_requested_cents : ℤ
  amount_granted_cents : ℤ
  decision_factors : DecisionFactors
  id : String
  plan_id : Option String
  created_at : ℤ
deriving DecidableEq

/-- `DecisionService._calculate_decision`: the application-service duplicate
of the decision engine (same computation, richer entity; the plan id is
attached later by the caller, so it starts out `none`). -/
def calculate_decision (s : ScoringSettings) (user_id : String)
    (amount_requested : ℤ) (transactions : List Transaction)
    (fresh_decision_id : String) (now : ℤ) : DomainDecision :=
  if transactions.isEmpty then
    { user_id
      approved := false
      credit_limit_cents := 0
      amount_requested_cents := amount_requested
      amount_granted_cents := 0
      decision_factors :=
        { avg_daily_balance := Fr.ofInt 0
          income_ratio := .finite (Fr.ofInt 0)
          nsf_count := 0
          risk_score := 0 }
      id := fresh_decision_id
      plan_id := none
      created_at := now }
  else
    match handle_thin_file transactions s with
    | some (approved, credit_limit_cents) =>
      let amount_granted :=
        if approved then min amount_requested credit_limit_cents else 0
      let avg_daily_balance := calculate_avg_daily_balance transactions
      let income_ratio := calculate_income_spend_ratio transactions
      let nsf_count := count_nsf_events transactions
      { user_id
        approved
        credit_limit_cents
        amount_requested_cents := amount_requested
        amount_granted_cents := amount_granted
        decision_factors :=
          { avg_daily_balance := avg_daily_balance.round2
            income_ratio := income_ratio.round2
            nsf_count
            risk_score := if approved then 30 else 0 }
        id := fresh_decision_id
        plan_id := none
        created_at := now }
    | none =>
      let avg_daily_balance := calculate_avg_daily_balance transactions
      let income_ratio := calculate_income_spend_ratio transactions
      let nsf_count := count_nsf_events transactions
      let income_consistency := calculate_income_consistency transactions
      let risk_score :=
        calculate_risk_score avg_daily_balance income_ratio nsf_count
          (some income_consistency) s
      let credit_limit_cents := score_to_credit_limit_cents risk_score s
      let approved := decide (credit_limit_cents > 0)
      let amount_granted :=
        if approved then min amount_requested credit_limit_cents else 0
      let display_ratio : RatioVal :=
        match income_ratio with
        | .unbounded => .finite ⟨99999, 100⟩
        | .finite q => .finite q
      { user_id
        approved
        credit_limit_cents
        amount_requested_cents := amount_requested
        amount_granted_cents := amount_granted
        decision_factors :=
          { avg_daily_balance := avg_daily_balance.round2
            income_ratio := display_ratio.round2
            nsf_count
            risk_score }
        id := fresh_decision_id
        plan_id := none
        created_at := now }

/-- `domain.entities.plan.InstallmentStatus`. -/
inductive InstallmentStatus where
  | scheduled
  | paid
  | failed
  | cancelled
deriving DecidableEq

/-- `domain.entities.plan.Installment` (its `paid_at` is `None` at creation
and is not modelled further). -/
structure Installment where
  due_date : ℤ
  amount_cents : ℤ
  plan_id : String
  id : String
  status : InstallmentStatus
deriving DecidableEq

/-- `domain.entities.plan.Plan`. -/
structure Plan where
  user_id : String
  decision_id : String
  total_cents : ℤ
  installments : List Installment
  id : String
  created_at : ℤ
deriving DecidableEq

/-- `DecisionService.NUM_INSTALLMENTS`. -/
def NUM_INSTALLMENTS : ℕ := 4

/-- `DecisionService.DAYS_BETWEEN_INSTALLMENTS`. -/
def DAYS_BETWEEN_INSTALLMENTS : ℤ := 14

/-- `DecisionService._create_plan`: split `amount_cents` into
`NUM_INSTALLMENTS` installments by floor division (Python `//` and `%`, which
for the positive divisor 4 are `Int.ediv`/`Int.emod`, written `/` and `%`
here), the remainder added to the first installment; due dates start
`DAYS_BETWEEN_INSTALLMENTS` days after `today` (`date.today()`) and step by
the same interval; all statuses `scheduled`.  `plan_uuid`, `inst_uuid i` and
`now` are the `uuid4()` / `utcnow()` values drawn at construction. -/
def create_plan (user_id decision_id : String) (amount_cents : ℤ)
    (today : ℤ) (plan_uuid : String) (inst_uuid : ℕ → String) (now : ℤ) : Plan :=
  let base_amount := amount_cents / (NUM_INSTALLMENTS : ℤ)
  let remainder := amount_cents % (NUM_INSTALLMENTS : ℤ)
  let start_date := today + DAYS_BETWEEN_INSTALLMENTS
  let installments :=
    (List.range NUM_INSTALLMENTS).map (fun (i : ℕ) =>
      { due_date := start_date + (i : ℤ) * DAYS_BETWEEN_INSTALLMENTS
        amount_cents := base_amount + (if i = 0 then remainder else 0)
        plan_id := plan_uuid
        id := inst_uuid i
        status := .scheduled : Installment })
  { user_id
    decision_id
    total_cents := amount_cents
    installments
    id := plan_uuid
    created_at := now }

/-- `settings.validate_tiers_json`, modelled after JSON parsing: accept a
parsed tier list iff every row is a 3-element row with `min_score ≤ max_score`
and `limit_cents ≥ 0`.  (That every entry is an integer is enforced by the
type; a non-list document and unparseable JSON are rejected before this
point.) -/
def validate_tiers (tiers : List (List ℤ)) : Bool :=
  tiers.all (fun tier =>
    match tier with
    | [mn, mx, limit] => decide (mn ≤ mx) && decide (0 ≤ limit)
    | _ => false)

/-- Whether a parsed tier row contains `score` in its inclusive range. -/
def tierMatches (tier : List ℤ) (score : ℤ) : Bool :=
  match tier with
  | [mn, mx, _] => decide (mn ≤ score) && decide (score ≤ mx)
  | _ => false

/-- The spec's partition invariant: every integer score in [0,100] is matched
by exactly one tier row (no gaps, no overlaps). -/
def TiersPartition (tiers : List (List ℤ)) : Prop :=
  ∀ score ∈ Finset.Icc (0 : ℤ) 100, tiers.countP (fun t => tierMatches t score) = 1

instance (tiers : List (List ℤ)) : Decidable (TiersPartition tiers) := by
  unfold TiersPartition; infer_instance

/-- The default `credit_limit_tiers_json` document, post-parse
(`json.loads` of the default string). -/
def default_tiers_rows : List (List ℤ) :=
  [[0, 29, 0], [30, 44, 10000], [45, 59, 20000], [60, 74, 30000],
   [75, 84, 40000], [85, 94, 50000], [95, 100, 60000]]

/-- A clean thin file: 4 transactions on 4 distinct dates, no NSF, used as a
concrete evaluation input. -/
def thinCleanTxs : List Transaction :=
  [ { date := 738000, amount_cents := 50000, balance_cents := 50000, type := .credit },
    { date := 738005, amount_cents := -2000, balance_cents := 48000, type := .debit },
    { date := 738010, amount_cents := -3000, balance_cents := 45000, type := .debit },
    { date := 738015, amount_cents := 50000, balance_cents := 95000, type := .credit } ]

/-- A single-transaction thin file with income and no spending (its
income/spend ratio is the unbounded sentinel). -/
def oneCreditTxs : List Transaction :=
  [ { date := 738000, amount_cents := 50000, balance_cents := 50000, type := .credit } ]

/-- A standard (non-thin) file of 30 daily credit transactions and no debits:
unbounded income/spend ratio on the standard scoring path. -/
def creditsOnly30 : List Transaction :=
  (List.range 30).map (fun (i : ℕ) =>
    { date := 738000 + (i : ℤ), amount_cents := 10000,
      balance_cents := 10000 * ((i : ℤ) + 1), type := .credit })

/-- A standard file of 30 daily debits with deeply negative balances and 3
NSF events (one implicit crossing on day 0, two explicit flags). -/
def overdraft30 : List Transaction :=
  (List.range 30).map (fun (i : ℕ) =>
    { date := 738000 + (i : ℤ), amount_cents := -1000, balance_cents := -70000,
      type := .debit, nsf := decide (i = 1 ∨ i = 2) })

/-- A standard file with 3 explicitly flagged NSF events, spending slightly
above income (ratio ≈ 0.99), and a high constant balance of $2000. -/
def highBal30 : List Transaction :=
  (List.range 30).map (fun (i : ℕ) =>
    if i % 2 = 0 then
      { date := 738000 + (i : ℤ), amount_cents := 10000, balance_cents := 200000,
        type := .credit, nsf := decide (i = 0 ∨ i = 2 ∨ i = 4) }
    else
      { date := 738000 + (i : ℤ), amount_cents := -10100, balance_cents := 200000,
        type := .debit })

/-- The default settings with `adb_negative_floor` reconfigured to -100
dollars (every other field unchanged). -/
def floor100_settings : ScoringSettings :=
  { scoring_settings with adb_negative_floor := ⟨-100, 1⟩ }

/-- Truncating division bound: if `a < (n+1)·b` with `b > 0`, `0 ≤ n`, then
`a.tdiv b ≤ n`. -/
theorem tdiv_le_of_lt_mul {a b n : ℤ} (hb : 0 < b) (hn : 0 ≤ n)
    (h : a < (n + 1) * b) : a.tdiv b ≤ n := by
  rcases le_or_lt 0 a with ha | ha
  · rw [Int.tdiv_eq_ediv ha hb.le]
    have := (Int.ediv_lt_iff_lt_mul hb).mpr h
    omega
  · have h1 : a.tdiv b = -((-a).tdiv b) := by rw [Int.neg_tdiv, neg_neg]
    have h2 : 0 ≤ (-a).tdiv b := Int.tdiv_nonneg (by omega) hb.le
    omega

/-- C9: the negative-balance branch of `score_avg_daily_balance` divides by
the hard-coded literal 10, so it ignores the configured
`adb_negative_floor` ("ADB at or below this value gets score 0"): with the
floor reconfigured to -100 dollars, the score at -100 is 10, not 0.  Only
for the default floor of -200 does the hard-coded slope happen to reach 0 at
the floor. -/
theorem c9_negative_floor_eval :
    floor100_settings.adb_negative_floor = Fr.ofInt (-100) ∧
    score_avg_daily_balance (Fr.ofInt (-100)) floor100_settings = 10 ∧
    score_avg_daily_balance (Fr.ofInt (-200)) scoring_settings = 0 := by
  decide

/-- C5 counterexample: `validate_tiers` (the load-time validation of
`validate_tiers_json`) accepts the tier list `[[0,50,0]]` even though it
violates the partition property (scores 51..100 match no tier), so violating
lists are not rejected at construction time. -/
theorem c5_validation_gap_cex :
    validate_tiers [[0, 50, 0]] = true ∧ ¬ TiersPartition [[0, 50, 0]] := by
  decide

/-- C5 amended: the default tier configuration does partition [0,100] (every
integer score 0..100 matches exactly one tier) and passes validation, but the
validation itself only checks well-formedness of each row. -/
theorem c5_default_partition_amended :
    TiersPartition default_tiers_rows ∧ validate_tiers default_tiers_rows = true := by
  decide

/-- C6 counterexample: a thin file consisting of one credit transaction has
the unbounded income/spend ratio, and on the thin-file path the engine
exposes the unbounded sentinel itself — not the display cap 999.99 — in the
returned decision factors. -/
theorem c6_thin_path_unbounded_cex :
    calculate_income_spend_ratio oneCreditTxs = .unbounded ∧
    is_thin_file oneCreditTxs scoring_settings = true ∧
    (make_decision scoring_settings oneCreditTxs 5000 false "").decision_factors.income_ratio
      = .unbounded ∧
    (RatioVal.unbounded ≠ .finite ⟨99999, 100⟩) := by
  decide

/-- C7 counterexample: a non-thin 30-day file with exactly 3 NSF events and
spending exceeding income (ratio 450000/454500 ≈ 0.99) but a high average
balance is approved at limit 20000 — the decline claimed for all such inputs
does not hold. -/
theorem c7_decline_cex :
    handle_thin_file highBal30 scoring_settings = none ∧
    count_nsf_events highBal30 = 3 ∧
    calculate_income_spend_ratio highBal30 = .finite ⟨450000, 454500⟩ ∧
    Fr.blt ⟨450000, 454500⟩ (Fr.ofInt 1) = true ∧
    (make_decision scoring_settings highBal30 30000 false "").approved = true ∧
    (make_decision scoring_settings highBal30 30000 false "").credit_limit_cents = 20000 := by
  decide

/-- C8 counterexample: two runs on identical transactions, amount and
configuration differ in the generated plan identifier (fresh `uuid4()` per
run), and two plan builds on identical granted amounts differ in their due
dates when the runs happen on different days (`date.today()`), so not every
field of the Decision and Plan is identical between runs. -/
theorem c8_determinism_cex :
    make_decision scoring_settings thinCleanTxs 5000 true "3f1e5356"
      ≠ make_decision scoring_settings thinCleanTxs 5000 true "a7c20d14" ∧
    (create_plan "user-1" "dec-1" 10000 738100 "p" (fun _ => "i") 0).installments.map
        (·.due_date)
      ≠ (create_plan "user-1" "dec-1" 10000 738101 "p" (fun _ => "i") 0).installments.map
        (·.due_date) := by
  decide

/-- C3 counterexample: the positive requested amount 3 is approved on the
thin-file path with granted amount 3, and the resulting plan's installments
are [3, 0, 0, 0] — the last three violate the claimed strict positivity. -/
theorem c3_zero_installment_cex :
    (make_decision scoring_settings thinCleanTxs 3 false "").approved = true ∧
    (make_decision scoring_settings thinCleanTxs 3 false "").amount_granted_cents = 3 ∧
    (create_plan "user-1" "dec-1"
        (make_decision scoring_settings thinCleanTxs 3 false "").amount_granted_cents
        738100 "p" (fun _ => "i") 0).installments.map (·.amount_cents) = [3, 0, 0, 0] := by
  decide

/-- The plan builder produces exactly these four installments. -/
theorem create_plan_installments (uid did pu : String) (iu : ℕ → String)
    (G today now : ℤ) :
    (create_plan uid did G today pu iu now).installments =
      [ ⟨today + 14, G / 4 + G % 4, pu, iu 0, .scheduled⟩,
        ⟨today + 28, G / 4, pu, iu 1, .scheduled⟩,
        ⟨today + 42, G / 4, pu, iu 2, .scheduled⟩,
        ⟨today + 56, G / 4, pu, iu 3, .scheduled⟩ ] := by
  simp only [create_plan, NUM_INSTALLMENTS, DAYS_BETWEEN_INSTALLMENTS,
    show List.range 4 = [0, 1, 2, 3] from rfl, List.map_cons, List.map_nil]
  norm_num [Installment.mk.injEq]
  omega

/-- C2: for every granted amount the built plan has exactly four
installments, with amounts `[G/4 + G%4, G/4, G/4, G/4]` (floor division, the
whole remainder on the first installment) summing exactly to G, due dates at
evaluation date + 14/28/42/56 days, and every status `scheduled`; in
particular G = 10003 yields [2503, 2500, 2500, 2500]. -/
theorem c2_plan_shape (uid did pu : String) (iu : ℕ → String) (G today now : ℤ) :
    (create_plan uid did G today pu iu now).installments.length = 4 ∧
    (create_plan uid did G today pu iu now).installments.map (·.amount_cents)
      = [G / 4 + G % 4, G / 4, G / 4, G / 4] ∧
    ((create_plan uid did G today pu iu now).installments.map (·.amount_cents)).sum = G ∧
    (create_plan uid did G today pu iu now).installments.map (·.due_date)
      = [today + 14, today + 28, today + 42, today + 56] ∧
    (∀ inst ∈ (create_plan uid did G today pu iu now).installments,
      inst.status = InstallmentStatus.scheduled) ∧
    (create_plan uid did 10003 today pu iu now).installments.map (·.amount_cents)
      = [2503, 2500, 2500, 2500] := by
  rw [create_plan_installments, create_plan_installments]
  refine ⟨rfl, rfl, ?_, rfl, ?_, ?_⟩
  · simp only [List.map_cons, List.map_nil, List.sum_cons, List.sum_nil]
    omega
  · intro inst hmem
    simp only [List.mem_cons, List.not_mem_nil, or_false] at hmem
    rcases hmem with h | h | h | h <;> subst h <;> rfl
  · norm_num

/-- C3 (amended): for every strictly positive granted amount the first
installment is strictly positive and all installments are non-negative; all
four are strictly positive as soon as the granted amount is at least 4 (for
granted amounts 1..3 the last three installments are 0). -/
theorem c3_installment_amounts_amended (uid did pu : String) (iu : ℕ → String)
    (G today now : ℤ) (hG : 0 < G) :
    0 < ((create_plan uid did G today pu iu now).installments.map (·.amount_cents)).headI ∧
    (∀ inst ∈ (create_plan uid did G today pu iu now).installments,
      0 ≤ inst.amount_cents) ∧
    (4 ≤ G → ∀ inst ∈ (create_plan uid did G today pu iu now).installments,
      0 < inst.amount_cents) := by
  rw [create_plan_installments]
  refine ⟨?_, ?_, ?_⟩
  · simp only [List.map_cons, List.headI]
    omega
  · intro inst hmem
    simp only [List.mem_cons, List.not_mem_nil, or_false] at hmem
    rcases hmem with h | h | h | h <;> subst h <;> simp <;> omega
  · intro h4 inst hmem
    simp only [List.mem_cons, List.not_mem_nil, or_false] at hmem
    rcases hmem with h | h | h | h <;> subst h <;> simp <;> omega

/-- C3 witness: the amended statement instantiated at granted amount 5. -/
theorem c3_installment_amounts_amended_witness :
    0 < ((create_plan "user-1" "dec-1" 5 738100 "p" (fun _ => "i") 0).installments.map
      (·.amount_cents)).headI ∧
    (∀ inst ∈ (create_plan "user-1" "dec-1" 5 738100 "p" (fun _ => "i") 0).installments,
      0 ≤ inst.amount_cents) := by
  have h := c3_installment_amounts_amended "user-1" "dec-1" "p" (fun _ => "i")
    5 738100 0 (by norm_num)
  exact ⟨h.1, h.2.1⟩

/-- C8 (amended): the pipeline is deterministic in everything except the
freshly drawn identifiers and the run date: two runs of the engine on
identical transactions, amount and configuration agree on approval, credit
limit, granted amount and all decision factors (only `plan_id` carries the
fresh uuid), and two plan builds for the same granted amount and evaluation
date agree on total, installment amounts, due dates and statuses (only the
plan/installment ids carry fresh uuids). -/
theorem c8_determinism_amended (s : ScoringSettings) (txs : List Transaction)
    (req : ℤ) (g : Bool) (u1 u2 uid did pu1 pu2 : String) (iu1 iu2 : ℕ → String)
    (G today now1 now2 : ℤ) :
    ((make_decision s txs req g u1).approved = (make_decision s txs req g u2).approved ∧
     (make_decision s txs req g u1).credit_limit_cents
       = (make_decision s txs req g u2).credit_limit_cents ∧
     (make_decision s txs req g u1).amount_granted_cents
       = (make_decision s txs req g u2).amount_granted_cents ∧
     (make_decision s txs req g u1).decision_factors
       = (make_decision s txs req g u2).decision_factors) ∧
    ((create_plan uid did G today pu1 iu1 now1).total_cents
       = (create_plan uid did G today pu2 iu2 now2).total_cents ∧
     (create_plan uid did G today pu1 iu1 now1).installments.map (·.amount_cents)
       = (create_plan uid did G today pu2 iu2 now2).installments.map (·.amount_cents) ∧
     (create_plan uid did G today pu1 iu1 now1).installments.map (·.due_date)
       = (create_plan uid did G today pu2 iu2 now2).installments.map (·.due_date) ∧
     (create_plan uid did G today pu1 iu1 now1).installments.map (·.status)
       = (create_plan uid did G today pu2 iu2 now2).installments.map (·.status)) := by
  constructor
  · unfold make_decision
    split
    · exact ⟨rfl, rfl, rfl, rfl⟩
    · split
      · exact ⟨rfl, rfl, rfl, rfl⟩
      · exact ⟨rfl, rfl, rfl, rfl⟩
  · rw [create_plan_installments, create_plan_installments]
    exact ⟨rfl, rfl, rfl, rfl⟩

/-- C1: on every path of both decision engines (empty input, thin file,
standard scoring) the granted amount is `min(requested, limit)` when approved
and 0 when declined. -/
theorem c1_granted_amount_formula (s : ScoringSettings) (txs : List Transaction)
    (req : ℤ) (g : Bool) (u uid did : String) (now : ℤ) :
    ((make_decision s txs req g u).amount_granted_cents =
      if (make_decision s txs req g u).approved then
        min req (make_decision s txs req g u).credit_limit_cents
      else 0) ∧
    ((calculate_decision s uid req txs did now).amount_granted_cents =
      if (calculate_decision s uid req txs did now).approved then
        min req (calculate_decision s uid req txs did now).credit_limit_cents
      else 0) := by
  constructor
  · unfold make_decision
    split
    · rfl
    · split
      · rename_i approved limit heq
        cases approved <;> rfl
      · rfl
  · unfold calculate_decision
    split
    · rfl
    · split
      · rename_i approved limit heq
        cases approved <;> rfl
      · rfl

/-- C4: a file is classified thin iff the transaction count is below the
configured minimum or the distinct-date count is below the configured
minimum; every thin file is declined (limit 0) when the NSF count is
positive and otherwise approved at exactly the configured starter limit,
independent of any computed score (the thin-file branch never consults the
scorer). -/
theorem c4_thin_file_policy (s : ScoringSettings) (txs : List Transaction)
    (req : ℤ) (g : Bool) (u : String) (hne : txs ≠ []) :
    (is_thin_file txs s = true ↔
      (txs.length < s.min_transactions ∨ distinctDates txs < s.min_history_days)) ∧
    (is_thin_file txs s = true →
      (0 < count_nsf_events txs →
        (make_decision s txs req g u).approved = false ∧
        (make_decision s txs req g u).credit_limit_cents = 0 ∧
        (make_decision s txs req g u).amount_granted_cents = 0) ∧
      (count_nsf_events txs = 0 →
        (make_decision s txs req g u).approved = true ∧
        (make_decision s txs req g u).credit_limit_cents = s.thin_file_limit_cents ∧
        (make_decision s txs req g u).amount_granted_cents
          = min req s.thin_file_limit_cents)) := by
  have hempty : txs.isEmpty = false := by
    cases txs with
    | nil => exact absurd rfl hne
    | cons a l => rfl
  constructor
  · unfold is_thin_file
    split_ifs with h1 h2
    · simp [h1]
    · simp [h1, h2]
    · simp [h1, h2]
  · intro hthin
    constructor
    · intro hnsf
      have hsome : handle_thin_file txs s = some (false, 0) := by
        unfold handle_thin_file
        rw [hthin]
        simp [hnsf]
      unfold make_decision
      rw [hempty, hsome]
      simp
    · intro hnsf0
      have hsome : handle_thin_file txs s = some (true, s.thin_file_limit_cents) := by
        unfold handle_thin_file
        rw [hthin, hnsf0]
        simp
      unfold make_decision
      rw [hempty, hsome]
      simp

/-- C4 witness: the clean thin file is approved at the default starter limit
10000 with granted amount `min 3000 10000 = 3000`. -/
theorem c4_thin_file_policy_witness :
    (make_decision scoring_settings thinCleanTxs 3000 false "").approved = true ∧
    (make_decision scoring_settings thinCleanTxs 3000 false "").credit_limit_cents = 10000 ∧
    (make_decision scoring_settings thinCleanTxs 3000 false "").amount_granted_cents = 3000 := by
  have h := ((c4_thin_file_policy scoring_settings thinCleanTxs 3000 false ""
    (by decide)).2 (by decide)).2 (by decide)
  refine ⟨h.1, h.2.1, ?_⟩
  rw [h.2.2]
  decide

/-- C6 (amended): for a non-empty transaction list whose income/spend ratio
is the unbounded sentinel, the income-ratio factor exposed in the Decision is
the display cap 999.99 on the standard scoring path only; on the thin-file
path the unbounded sentinel is passed through uncapped. -/
theorem c6_unbounded_cap_amended (s : ScoringSettings) (txs : List Transaction)
    (req : ℤ) (g : Bool) (u : String) (hne : txs ≠ [])
    (hub : calculate_income_spend_ratio txs = .unbounded) :
    (handle_thin_file txs s = none →
      (make_decision s txs req g u).decision_factors.income_ratio = .finite ⟨99999, 100⟩) ∧
    (∀ pr, handle_thin_file txs s = some pr →
      (make_decision s txs req g u).decision_factors.income_ratio = .unbounded) := by
  have hempty : txs.isEmpty = false := by
    cases txs with
    | nil => exact absurd rfl hne
    | cons a l => rfl
  constructor
  · intro hstd
    unfold make_decision
    rw [hempty, hstd, hub]
    rfl
  · intro pr hthin
    unfold make_decision
    rw [hempty, hthin, hub]
    cases pr with
    | mk approved limit => rfl

/-- C6 witness: the amended statement evaluated on a concrete standard file
with unbounded ratio (30 daily credits, no debits) and a concrete thin file
with unbounded ratio (one credit transaction). -/
theorem c6_unbounded_cap_amended_witness :
    (make_decision scoring_settings creditsOnly30 5000 false "").decision_factors.income_ratio
      = .finite ⟨99999, 100⟩ ∧
    (make_decision scoring_settings oneCreditTxs 5000 false "").decision_factors.income_ratio
      = .unbounded := by
  constructor
  · exact (c6_unbounded_cap_amended scoring_settings creditsOnly30 5000 false ""
      (by decide) (by decide)).1 (by decide)
  · exact (c6_unbounded_cap_amended scoring_settings oneCreditTxs 5000 false ""
      (by decide) (by decide)).2 (true, 10000) (by decide)

/-- Every finite ratio the pipeline produces has a positive denominator. -/
theorem ratio_den_pos {txs : List Transaction} {r : Fr}
    (h : calculate_income_spend_ratio txs = .finite r) : 0 < r.den := by
  unfold calculate_income_spend_ratio at h
  split at h
  · cases h
    decide
  · simp only [] at h
    split at h
    · split at h
      · cases h
      · cases h
        decide
    · cases h
      rename_i hd
      simp only [Fr.div, Fr.ofInt]
      have habs : 0 < |(((txs.filter (fun t => t.type = TxnType.debit)).map
          (·.amount_cents)).sum)| := by
        rcases (abs_nonneg (((txs.filter (fun t => t.type = TxnType.debit)).map
          (·.amount_cents)).sum)).lt_or_eq with h' | h'
        · exact h'
        · exact absurd h'.symm hd
      positivity

/-- With default settings, any finite ratio below 1 scores at most 49 (it
falls in the sub-critical or critical-to-breakeven bands). -/
theorem score_ratio_lt_one {r : Fr} (hden : 0 < r.den)
    (hlt : r.blt (Fr.ofInt 1) = true) :
    score_income_spend_ratio (.finite r) scoring_settings ≤ 49 := by
  have hnum : r.num < r.den := by simpa [Fr.blt, Fr.ofInt] using hlt
  unfold score_income_spend_ratio
  simp only [scoring_settings]
  split_ifs with h1 h2 h3 h4
  · simp only [Fr.div, Fr.mul, Fr.ofInt, Fr.pyInt]
    simp only [Fr.blt, decide_eq_true_eq] at h1
    have h24 : (r.num * 10 * 25).tdiv (r.den * 8 * 1) ≤ 24 := by
      apply tdiv_le_of_lt_mul (by positivity) (by norm_num)
      nlinarith
    omega
  · simp only [Fr.sub, Fr.div, Fr.mul, Fr.ofInt, Fr.pyInt]
    have h24 : ((r.num * 10 - 8 * r.den) * (10 * 10) * 25).tdiv
        (r.den * 10 * (10 * 10 - 8 * 10) * 1) ≤ 24 := by
      apply tdiv_le_of_lt_mul (by nlinarith) (by norm_num)
      nlinarith
    omega
  · exact absurd (by simp only [Fr.blt, decide_eq_true_eq]; nlinarith) h2
  · exact absurd (by simp only [Fr.blt, decide_eq_true_eq]; nlinarith) h2
  · exact absurd (by simp only [Fr.blt, decide_eq_true_eq]; nlinarith) h2

/-- With default settings, 3 or more NSF events score at most 25. -/
theorem score_nsf_ge3 {n : ℕ} (h : 3 ≤ n) :
    score_nsf_count n scoring_settings ≤ 25 := by
  unfold score_nsf_count
  simp only [scoring_settings]
  split_ifs <;> omega

/-- A finite ratio below 1 never exceeds the default gig-worker ratio
threshold of 1.2, so the gig boost cannot fire. -/
theorem gig_not_for_low_ratio {r : Fr} (hden : 0 < r.den) (hnum : r.num < r.den) :
    RatioVal.bgt (.finite r) scoring_settings.gig_worker_ratio_threshold = false := by
  simp only [RatioVal.bgt, scoring_settings, Fr.blt, decide_eq_false_iff_not, not_lt]
  nlinarith

/-- With the default weights 0.30/0.35/0.35, sub-scores bounded by 13, 49 and
25 give a truncated composite of at most 29. -/
theorem composite_le_29 {A R N : ℤ} (hA : A ≤ 13) (hR : R ≤ 49) (hN : N ≤ 25) :
    ((((Fr.ofInt A).mul ⟨30, 100⟩).add ((Fr.ofInt R).mul ⟨35, 100⟩)).add
      ((Fr.ofInt N).mul ⟨35, 100⟩)).pyInt ≤ 29 := by
  simp only [Fr.ofInt, Fr.mul, Fr.add, Fr.pyInt]
  apply tdiv_le_of_lt_mul (by norm_num) (by norm_num)
  nlinarith

/-- With default settings, a composite score of at most 29 lands in the
first tier `(0, 29, 0)` after clamping, so the credit limit is 0. -/
theorem limit_zero_of_le_29 {sc : ℤ} (h : sc ≤ 29) :
    score_to_credit_limit_cents sc scoring_settings = 0 := by
  unfold score_to_credit_limit_cents
  simp only [scoring_settings]
  split_ifs with h1 h2
  · norm_num [tierScan]
  · omega
  · unfold tierScan
    rw [if_pos ⟨by omega, h⟩]

/-- With default settings: a finite ratio below 1, at least 3 NSF events and
a balance sub-score of at most 13 force a composite risk score of at most
29 (the gig boost cannot fire because the ratio is below 1.2). -/
theorem risk_score_le_29 (adb : Fr) (c : ConsistencySignal) {r : Fr} {n : ℕ}
    (hden : 0 < r.den) (hlt : r.blt (Fr.ofInt 1) = true) (hnsf : 3 ≤ n)
    (hadb : score_avg_daily_balance adb scoring_settings ≤ 13) :
    calculate_risk_score adb (.finite r) n (some c) scoring_settings ≤ 29 := by
  have hnum : r.num < r.den := by simpa [Fr.blt, Fr.ofInt] using hlt
  unfold calculate_risk_score
  simp only []
  rw [gig_not_for_low_ratio hden hnum]
  simp only [Bool.and_false, Bool.false_eq_true, if_false]
  simp only [scoring_settings]
  exact composite_le_29 hadb (score_ratio_lt_one hden hlt) (score_nsf_ge3 hnsf)

/-- C7 (amended): under the default configuration, a non-empty, non-thin
file with at least 3 NSF events and spending exceeding income (finite ratio
below 1) is declined — credit limit 0, granted amount 0, no plan identifier
— provided additionally that the balance sub-score is at most 13; without
that extra condition high balances can push the composite past the approval
tiers (see the counterexample). -/
theorem c7_nsf_overspend_decline_amended (txs : List Transaction) (req : ℤ)
    (g : Bool) (u : String) (r : Fr) (hne : txs ≠ [])
    (hstd : handle_thin_file txs scoring_settings = none)
    (hr : calculate_income_spend_ratio txs = .finite r)
    (hlt : r.blt (Fr.ofInt 1) = true)
    (hnsf : 3 ≤ count_nsf_events txs)
    (hadb : score_avg_daily_balance (calculate_avg_daily_balance txs)
      scoring_settings ≤ 13) :
    (make_decision scoring_settings txs req g u).approved = false ∧
    (make_decision scoring_settings txs req g u).credit_limit_cents = 0 ∧
    (make_decision scoring_settings txs req g u).amount_granted_cents = 0 ∧
    (make_decision scoring_settings txs req g u).plan_id = none := by
  have hden := ratio_den_pos hr
  have hscore := risk_score_le_29 (calculate_avg_daily_balance txs)
    (calculate_income_consistency txs) hden hlt hnsf hadb
  have hlim := limit_zero_of_le_29 hscore
  have hempty : txs.isEmpty = false := by
    cases txs with
    | nil => exact absurd rfl hne
    | cons a l => rfl
  unfold make_decision
  rw [hempty, hstd]
  simp only [Bool.false_eq_true, if_false]
  rw [hr, hlim]
  simp

/-- C7 witness: the amended statement evaluated on the 30-day overdraft file
(3 NSF events, ratio 0 < 1, deeply negative balances). -/
theorem c7_nsf_overspend_decline_amended_witness :
    (make_decision scoring_settings overdraft30 30000 false "").approved = false ∧
    (make_decision scoring_settings overdraft30 30000 false "").credit_limit_cents = 0 ∧
    (make_decision scoring_settings overdraft30 30000 false "").amount_granted_cents = 0 ∧
    (make_decision scoring_settings overdraft30 30000 false "").plan_id = none :=
  c7_nsf_overspend_decline_amended overdraft30 30000 false "" ⟨0, 90000⟩
    (by decide) (by decide) (by decide) (by decide) (by decide) (by decide)

/-- Folding `min` starting from `min d e` is folding from `d` and taking
`min` with `e` at the end. -/
theorem foldl_min_min (d e : ℤ) (ts : List Transaction) :
    ts.foldl (fun m u => min m u.date) (min d e) =
      min (ts.foldl (fun m u => min m u.date) d) e := by
  induction ts generalizing d with
  | nil => rfl
  | cons u us ih =>
    simp only [List.foldl_cons]
    rw [show min (min d e) u.date = min (min d u.date) e from min_right_comm d e u.date]
    exact ih (min d u.date)

/-- `minDate` of a cons, for a non-empty tail. -/
theorem minDate_cons (t : Transaction) (ts : List Transaction) (h : ts ≠ []) :
    minDate (t :: ts) = min t.date (minDate ts) := by
  cases ts with
  | nil => exact absurd rfl h
  | cons u us =>
    simp only [minDate, List.foldl_cons]
    rw [min_comm t.date u.date, foldl_min_min, min_comm]

/-- Inserting a transaction anywhere adds its date to the running minimum. -/
theorem minDate_insert_min (l1 l2 : List Transaction) (t : Transaction)
    (hne : l1 ++ l2 ≠ []) :
    minDate (l1 ++ t :: l2) = min (minDate (l1 ++ l2)) t.date := by
  cases l1 with
  | nil =>
    simp only [List.nil_append] at hne ⊢
    rw [minDate_cons t l2 hne, min_comm]
  | cons x l1' =>
    simp only [List.cons_append, minDate, List.foldl_append, List.foldl_cons]
    exact foldl_min_min _ _ l2

/-- The end-of-day balance map ignores transactions dated differently. -/
theorem dayBalance_insert (l1 l2 : List Transaction) (t : Transaction) (d : ℤ)
    (hd : t.date ≠ d) :
    dayBalance (l1 ++ t :: l2) d = dayBalance (l1 ++ l2) d := by
  unfold dayBalance
  rw [List.filter_append, List.filter_cons, List.filter_append]
  simp [hd]

/-- The 90-day walk only depends on the balance map at the visited days. -/
theorem adbLoop_congr (txs1 txs2 : List Transaction) (start : ℤ) (n : ℕ)
    (h : ∀ k : ℕ, k < n →
      dayBalance txs1 (start + (k : ℤ)) = dayBalance txs2 (start + (k : ℤ))) :
    adbLoop txs1 start n = adbLoop txs2 start n := by
  induction n with
  | zero => rfl
  | succ m ih =>
    unfold adbLoop
    rw [ih (fun k hk => h k (Nat.lt_succ_of_lt hk)), h m (Nat.lt_succ_self m)]

/-- C10: the average daily balance depends only on the 90-day window anchored
at the earliest transaction date — inserting (anywhere) a transaction dated
90 or more days after the earliest date leaves it unchanged; read right to
left this also covers removal, and two applications cover changing such a
transaction. -/
theorem c10_adb_window (l1 l2 : List Transaction) (t : Transaction)
    (hne : l1 ++ l2 ≠ [])
    (hlate : minDate (l1 ++ l2) + 90 ≤ t.date) :
    calculate_avg_daily_balance (l1 ++ t :: l2)
      = calculate_avg_daily_balance (l1 ++ l2) := by
  have hmin : minDate (l1 ++ t :: l2) = minDate (l1 ++ l2) := by
    rw [minDate_insert_min l1 l2 t hne]
    exact min_eq_left (by omega)
  unfold calculate_avg_daily_balance
  rw [hmin]
  have hloop : adbLoop (l1 ++ t :: l2) (minDate (l1 ++ l2)) 90
      = adbLoop (l1 ++ l2) (minDate (l1 ++ l2)) 90 := by
    apply adbLoop_congr
    intro k hk
    apply dayBalance_insert
    have : (k : ℤ) < 90 := by exact_mod_cast hk
    omega
  rw [hloop]

/-- C10 witness: a transaction dated exactly 90 days after the earliest does
not change the computed average. -/
theorem c10_adb_window_witness :
    calculate_avg_daily_balance
        ([⟨738000, 50000, 50000, .credit, false, ""⟩] ++
          ⟨738090, 1000, 99999, .credit, false, ""⟩ :: [])
      = calculate_avg_daily_balance [⟨738000, 50000, 50000, .credit, false, ""⟩] :=
  c10_adb_window [⟨738000, 50000, 50000, .credit, false, ""⟩] []
    ⟨738090, 1000, 99999, .credit, false, ""⟩ (by decide) (by decide)
